import Mathlib

/-
  Verification of the capacity-doubling rolling-deployment tool (deploy.py).

  The cloud provider is modelled as explicit state:
  - an auto scaling group (ASG) with a desired capacity, a max size, member
    instance ids, attached load-balancer names and a set of suspended processes;
  - the EC2 fleet as reservations of instances carrying key/value tags;
  - time-indexed environment observations for the two health counts
    (time advances only in the 30-unit sleeps of the polling loops).
  Mutating provider calls are recorded in a trace; deploy returns the trace,
  the terminal outcome and the final provider-owned state it controls.
-/

/-- One record returned by describe_auto_scaling_instances: the instance id,
the name of the group it belongs to, and its lifecycle state. -/
structure AsgInstance where
  instanceId : String
  autoScalingGroupName : String
  lifecycleState : String
deriving DecidableEq

/-- One record returned by describe_instance_health on a load balancer. -/
structure ElbInstanceState where
  instanceId : String
  state : String
deriving DecidableEq

/-- An EC2 instance as seen by describe_instances: id plus its tags. -/
structure Ec2Instance where
  instanceId : String
  tags : List (String × String)
deriving DecidableEq

/-- ElasticLoadBalancer.get_healthy_instance_count: count the InstanceStates
entries of the one named load balancer whose State is InService. -/
def ElasticLoadBalancer.getHealthyInstanceCount (states : List ElbInstanceState) : Nat :=
  states.countP (fun i => i.state == "InService")

/-- AutoScalingGroup.__init__ sets self.processes to the one-element list
containing AlarmNotification. -/
def asgProcesses : List String := ["AlarmNotification"]

/-- AutoScalingGroup.get_healthy_instance_count: describe_auto_scaling_instances
is called with MaxRecords set to 50 and no group filter and no pagination, so the
code sees at most the first 50 records of the whole fleet and counts those whose
LifecycleState is InService, regardless of which group they belong to. -/
def AutoScalingGroup.getHealthyInstanceCount (fleet : List AsgInstance) : Nat :=
  (fleet.take 50).countP (fun i => i.lifecycleState == "InService")

/-- AutoScalingGroup.get_new_desired_capacity: twice the current desired capacity. -/
def getNewDesiredCapacity (desiredCapacity : Nat) : Nat :=
  2 * desiredCapacity

/-- AutoScalingGroup.has_enough_capacity: get_new_desired_capacity() <= get_max_capacity(). -/
def hasEnoughCapacity (desiredCapacity maxSize : Nat) : Bool :=
  getNewDesiredCapacity desiredCapacity ≤ maxSize

/-- Provider effect of suspend_processes: each named process is added to the
suspended set of the group; processes already suspended stay suspended. -/
def suspendProcessesState (suspended procs : List String) : List String :=
  procs.foldl (fun s p => if s.contains p then s else s ++ [p]) suspended

/-- Provider effect of resume_processes: each named process is removed from the
suspended set of the group; all other processes are untouched. -/
def resumeProcessesState (suspended procs : List String) : List String :=
  suspended.filter (fun p => !(procs.contains p))

/-- The tag EC2._termination_tag: key Terminate-After-Deploy, value true. -/
def terminationTag : String × String := ("Terminate-After-Deploy", "true")

/-- Provider effect of create_tags on the tag list of one instance: an existing
tag with the same key has its value overwritten, otherwise the tag is appended. -/
def applyTag (tags : List (String × String)) (t : String × String) : List (String × String) :=
  if tags.any (fun p => p.1 == t.1) then
    tags.map (fun p => if p.1 == t.1 then (p.1, t.2) else p)
  else
    tags ++ [t]

/-- EC2.tag_instances via create_tags: apply the given tags to every instance
whose id is among the given resources, across all reservations. -/
def createTags (reservations : List (List Ec2Instance)) (resources : List String)
    (tags : List (String × String)) : List (List Ec2Instance) :=
  reservations.map (fun res => res.map (fun inst =>
    if resources.contains inst.instanceId then
      { inst with tags := tags.foldl applyTag inst.tags }
    else inst))

/-- EC2.mark_instances_for_termination: tag the instances with the termination tag. -/
def markInstancesForTermination (reservations : List (List Ec2Instance))
    (instanceIds : List String) : List (List Ec2Instance) :=
  createTags reservations instanceIds [terminationTag]

/-- Whether an instance carries the given tag key/value pair. -/
def hasTag (inst : Ec2Instance) (key value : String) : Bool :=
  inst.tags.any (fun p => p.1 == key && p.2 == value)

/-- describe_instances filtered by one tag: each reservation is narrowed to its
matching instances and reservations with no match are dropped. -/
def describeInstancesByTag (reservations : List (List Ec2Instance)) (key value : String) :
    List (List Ec2Instance) :=
  (reservations.map (fun res => res.filter (fun i => hasTag i key value))).filter
    (fun res => !res.isEmpty)

/-- EC2.get_instances_marked_for_termination: the body indexes
Reservations[0].Instances inside a bare try/except returning the empty list, so
a failed provider call yields the empty list, an empty reservation list yields
the empty list (the index raises), and otherwise only the instances of the
first reservation are returned. -/
def getInstancesMarkedForTermination (resp : Except String (List (List Ec2Instance))) :
    List String :=
  match resp with
  | .error _ => []
  | .ok [] => []
  | .ok (res :: _) => res.map (fun i => i.instanceId)

/-- A mutating provider call issued by the orchestrator, in order. -/
inductive Call where
  | createTags (resources : List String) (tags : List (String × String))
  | suspendProcesses (group : String) (procs : List String)
  | resumeProcesses (group : String) (procs : List String)
  | setDesiredCapacity (group : String) (n : Nat)
  | terminateInstances (ids : List String)
deriving DecidableEq

/-- EC2.terminate_instances: the guard `if instance_ids and len(instance_ids) > 0`
means an empty id list issues no provider call; otherwise exactly those ids are
passed to the provider terminate call. -/
def terminateInstancesCalls (instanceIds : List String) : List Call :=
  if !instanceIds.isEmpty && instanceIds.length > 0 then
    [Call.terminateInstances instanceIds]
  else
    []

/-- Result of one polling loop: either the healthy count reached the target
(carrying the clock at which it did and the cumulative wait), or the loop
aborted by timeout (carrying the cumulative wait at the abort). -/
inductive PollResult where
  | converged (clock waited : Nat)
  | timedOut (waited : Nat)
deriving DecidableEq

/-- One polling loop of deploy: while the current count is below the target,
sleep 30 units, add 30 to the cumulative wait, abort once the cumulative wait
reaches 900, otherwise re-read only the healthy count at the new clock. The
target is a plain number fixed at entry and never re-read. -/
def pollLoop (healthyAt : Nat → Nat) (target clock timeSpent count : Nat) : PollResult :=
  if count < target then
    if timeSpent + 30 ≥ 900 then
      .timedOut (timeSpent + 30)
    else
      pollLoop healthyAt target (clock + 30) (timeSpent + 30) (healthyAt (clock + 30))
  else
    .converged clock timeSpent
termination_by 900 - timeSpent
decreasing_by omega

/-- The provider-side inputs of one deploy invocation. The orchestrator is the
sole writer of desired capacity and process suspension during the run, so those
start from the fields below and change only through the recorded calls; the two
health counts are environment observations indexed by the sleep clock. -/
structure DeployEnv where
  groupName : String
  desiredCapacity : Nat
  maxSize : Nat
  loadBalancerNames : List String
  memberInstanceIds : List String
  suspendedProcesses : List String
  fleetAt : Nat → List AsgInstance
  elbStatesAt : Nat → List ElbInstanceState
  ec2Reservations : List (List Ec2Instance)

/-- Terminal outcome of deploy: ran to completion, called sys.exit with a code,
or crashed on an unhandled exception. -/
inductive Outcome where
  | completed
  | exited (code : Nat)
  | crashed
deriving DecidableEq

/-- Observable record of one deploy run: outcome, ordered trace of mutating
provider calls, final desired capacity and suspended-process set of the group,
and the values of the local variables original_desired_capacity and
current_desired_capacity (and the target each polling loop was entered with),
when the run reached the point where they are assigned. -/
structure DeployLog where
  outcome : Outcome
  calls : List Call
  finalDesired : Nat
  finalSuspended : List String
  originalDesiredCapacity : Option Nat
  currentDesiredCapacity : Option Nat
  asgPollTarget : Option Nat
  elbPollTarget : Option Nat
deriving DecidableEq

/-- The ASG healthy count the orchestrator observes at a given clock. -/
def asgHealthyAt (env : DeployEnv) (t : Nat) : Nat :=
  AutoScalingGroup.getHealthyInstanceCount (env.fleetAt t)

/-- The ELB healthy count the orchestrator observes at a given clock. -/
def elbHealthyAt (env : DeployEnv) (t : Nat) : Nat :=
  ElasticLoadBalancer.getHealthyInstanceCount (env.elbStatesAt t)

/-- The deploy function of deploy.py. Reads re-fetch provider state; every
capacity read before the set_desired_capacity call returns the initial desired
capacity, and the read after it returns the value just set, the orchestrator
being the sole writer. Resolving the load balancer name indexes
LoadBalancerNames[0] without a handler, so an empty list crashes the run before
anything else happens. -/
def deploy (env : DeployEnv) : DeployLog :=
  match env.loadBalancerNames with
  | [] =>
    { outcome := .crashed, calls := [], finalDesired := env.desiredCapacity,
      finalSuspended := env.suspendedProcesses, originalDesiredCapacity := none,
      currentDesiredCapacity := none, asgPollTarget := none, elbPollTarget := none }
  | _ :: _ =>
    if hasEnoughCapacity env.desiredCapacity env.maxSize = false then
      { outcome := .exited 4, calls := [], finalDesired := env.desiredCapacity,
        finalSuspended := env.suspendedProcesses, originalDesiredCapacity := none,
        currentDesiredCapacity := none, asgPollTarget := none, elbPollTarget := none }
    else
      let original := env.desiredCapacity
      let existing := env.memberInstanceIds
      let ec2State := markInstancesForTermination env.ec2Reservations existing
      let suspended := suspendProcessesState env.suspendedProcesses asgProcesses
      let newDesired := getNewDesiredCapacity env.desiredCapacity
      let callsAfterDouble : List Call :=
        [Call.createTags existing [terminationTag],
         Call.suspendProcesses env.groupName asgProcesses,
         Call.setDesiredCapacity env.groupName newDesired]
      let currentDesired := newDesired
      match pollLoop (asgHealthyAt env) currentDesired 0 0 (asgHealthyAt env 0) with
      | .timedOut _ =>
        { outcome := .exited 5, calls := callsAfterDouble, finalDesired := newDesired,
          finalSuspended := suspended, originalDesiredCapacity := some original,
          currentDesiredCapacity := some currentDesired,
          asgPollTarget := some currentDesired, elbPollTarget := none }
      | .converged clock1 _ =>
        match pollLoop (elbHealthyAt env) currentDesired clock1 0 (elbHealthyAt env clock1) with
        | .timedOut _ =>
          { outcome := .exited 5, calls := callsAfterDouble, finalDesired := newDesired,
            finalSuspended := suspended, originalDesiredCapacity := some original,
            currentDesiredCapacity := some currentDesired,
            asgPollTarget := some currentDesired, elbPollTarget := some currentDesired }
        | .converged _ _ =>
          let marked := getInstancesMarkedForTermination
            (.ok (describeInstancesByTag ec2State terminationTag.1 terminationTag.2))
          let resumed := resumeProcessesState suspended asgProcesses
          { outcome := .completed,
            calls := callsAfterDouble ++ terminateInstancesCalls marked ++
              [Call.setDesiredCapacity env.groupName original,
               Call.resumeProcesses env.groupName asgProcesses],
            finalDesired := original, finalSuspended := resumed,
            originalDesiredCapacity := some original,
            currentDesiredCapacity := some currentDesired,
            asgPollTarget := some currentDesired, elbPollTarget := some currentDesired }

/-
  Polling-loop lemmas: cumulative wait at timeout, cumulative wait at
  convergence, and behaviour when the healthy count never reaches the target.
-/

theorem pollLoop_timedOut_waited (healthyAt : Nat → Nat) (target : Nat) :
    ∀ n timeSpent clock count, 900 - timeSpent ≤ 30 * n → 30 ∣ timeSpent →
      timeSpent ≤ 870 →
      ∀ w, pollLoop healthyAt target clock timeSpent count = PollResult.timedOut w →
        w = 900 := by
  intro n
  induction n with
  | zero => intro timeSpent clock count hbound _ hle; omega
  | succ n ih =>
    intro timeSpent clock count hbound hdvd hle w hw
    rw [pollLoop] at hw
    by_cases hc : count < target
    · simp only [hc, if_true] at hw
      by_cases ht : timeSpent + 30 ≥ 900
      · simp only [ht, if_true] at hw
        cases hw
        omega
      · simp only [ht, if_false] at hw
        exact ih (timeSpent + 30) (clock + 30) (healthyAt (clock + 30))
          (by omega) (by omega) (by omega) w hw
    · simp only [hc, if_false] at hw
      cases hw

theorem pollLoop_converged_waited (healthyAt : Nat → Nat) (target : Nat) :
    ∀ n timeSpent clock count, 900 - timeSpent ≤ 30 * n → 30 ∣ timeSpent →
      timeSpent ≤ 870 →
      ∀ c w, pollLoop healthyAt target clock timeSpent count = PollResult.converged c w →
        w ≤ 870 ∧ 30 ∣ w := by
  intro n
  induction n with
  | zero => intro timeSpent clock count hbound _ hle; omega
  | succ n ih =>
    intro timeSpent clock count hbound hdvd hle c w hw
    rw [pollLoop] at hw
    by_cases hc : count < target
    · simp only [hc, if_true] at hw
      by_cases ht : timeSpent + 30 ≥ 900
      · simp only [ht, if_true] at hw
        cases hw
      · simp only [ht, if_false] at hw
        exact ih (timeSpent + 30) (clock + 30) (healthyAt (clock + 30))
          (by omega) (by omega) (by omega) c w hw
    · simp only [hc, if_false] at hw
      cases hw
      exact ⟨hle, hdvd⟩

theorem pollLoop_never_healthy (healthyAt : Nat → Nat) (target : Nat)
    (hall : ∀ t, healthyAt t < target) :
    ∀ n timeSpent clock count, 900 - timeSpent ≤ 30 * n → 30 ∣ timeSpent →
      timeSpent ≤ 870 → count < target →
      pollLoop healthyAt target clock timeSpent count = PollResult.timedOut 900 := by
  intro n
  induction n with
  | zero => intro timeSpent clock count hbound _ hle; omega
  | succ n ih =>
    intro timeSpent clock count hbound hdvd hle hc
    rw [pollLoop]
    simp only [hc, if_true]
    by_cases ht : timeSpent + 30 ≥ 900
    · simp only [ht, if_true]
      have : timeSpent = 870 := by omega
      simp [this]
    · simp only [ht, if_false]
      exact ih (timeSpent + 30) (clock + 30) (healthyAt (clock + 30))
        (by omega) (by omega) (by omega) (hall (clock + 30))

/-- C4: in each health-polling loop (entered with cumulative wait 0 and the
count read at the entry clock), if the healthy count never reaches the target
the loop aborts with cumulative wait exactly 900, accumulated in 30-unit
increments; any timeout abort carries cumulative wait at least 900 and at most
900 plus one poll interval; and any convergence happens with cumulative wait at
most 870, so the loop always terminates within a bounded number of iterations. -/
theorem c4_timeout_boundary (healthyAt : Nat → Nat) (target clock : Nat) :
    ((∀ t, healthyAt t < target) →
      pollLoop healthyAt target clock 0 (healthyAt clock) = PollResult.timedOut 900) ∧
    (∀ w, pollLoop healthyAt target clock 0 (healthyAt clock) = PollResult.timedOut w →
      900 ≤ w ∧ w ≤ 900 + 30) ∧
    (∀ c w, pollLoop healthyAt target clock 0 (healthyAt clock) = PollResult.converged c w →
      w ≤ 870) := by
  refine ⟨fun hall => ?_, fun w hw => ?_, fun c w hw => ?_⟩
  · exact pollLoop_never_healthy healthyAt target hall 30 0 clock (healthyAt clock)
      (by omega) (by omega) (by omega) (hall clock)
  · have := pollLoop_timedOut_waited healthyAt target 30 0 clock (healthyAt clock)
      (by omega) (by omega) (by omega) w hw
    omega
  · exact (pollLoop_converged_waited healthyAt target 30 0 clock (healthyAt clock)
      (by omega) (by omega) (by omega) c w hw).1

/-- Witness for C4 at a concrete loop whose healthy count is always zero and
whose target is one: the loop times out with cumulative wait exactly 900. -/
theorem c4_timeout_boundary_witness :
    pollLoop (fun _ => 0) 1 0 0 ((fun _ : Nat => 0) 0) = PollResult.timedOut 900 :=
  (c4_timeout_boundary (fun _ => 0) 1 0).1 (fun _ => Nat.one_pos)
theorem deploy_eq_of_no_lb (env : DeployEnv)
    (hl : env.loadBalancerNames = []) :
    deploy env =
      { outcome := .crashed, calls := [], finalDesired := env.desiredCapacity,
        finalSuspended := env.suspendedProcesses, originalDesiredCapacity := none,
        currentDesiredCapacity := none, asgPollTarget := none, elbPollTarget := none } := by
  unfold deploy
  rw [hl]

theorem deploy_eq_of_insufficient (env : DeployEnv) (a : String) (l : List String)
    (hl : env.loadBalancerNames = a :: l)
    (hcap : hasEnoughCapacity env.desiredCapacity env.maxSize = false) :
    deploy env =
      { outcome := .exited 4, calls := [], finalDesired := env.desiredCapacity,
        finalSuspended := env.suspendedProcesses, originalDesiredCapacity := none,
        currentDesiredCapacity := none, asgPollTarget := none, elbPollTarget := none } := by
  unfold deploy
  rw [hl]
  simp [hcap]

theorem deploy_eq_of_asg_timeout (env : DeployEnv) (a : String) (l : List String) (w : Nat)
    (hl : env.loadBalancerNames = a :: l)
    (hcap : hasEnoughCapacity env.desiredCapacity env.maxSize = true)
    (hp : pollLoop (asgHealthyAt env) (getNewDesiredCapacity env.desiredCapacity) 0 0
        (asgHealthyAt env 0) = PollResult.timedOut w) :
    deploy env =
      { outcome := .exited 5,
        calls := [Call.createTags env.memberInstanceIds [terminationTag],
                  Call.suspendProcesses env.groupName asgProcesses,
                  Call.setDesiredCapacity env.groupName (getNewDesiredCapacity env.desiredCapacity)],
        finalDesired := getNewDesiredCapacity env.desiredCapacity,
        finalSuspended := suspendProcessesState env.suspendedProcesses asgProcesses,
        originalDesiredCapacity := some env.desiredCapacity,
        currentDesiredCapacity := some (getNewDesiredCapacity env.desiredCapacity),
        asgPollTarget := some (getNewDesiredCapacity env.desiredCapacity),
        elbPollTarget := none } := by
  unfold deploy
  rw [hl]
  simp [hcap, hp]

theorem deploy_eq_of_elb_timeout (env : DeployEnv) (a : String) (l : List String)
    (c1 w1 w : Nat)
    (hl : env.loadBalancerNames = a :: l)
    (hcap : hasEnoughCapacity env.desiredCapacity env.maxSize = true)
    (hp1 : pollLoop (asgHealthyAt env) (getNewDesiredCapacity env.desiredCapacity) 0 0
        (asgHealthyAt env 0) = PollResult.converged c1 w1)
    (hp2 : pollLoop (elbHealthyAt env) (getNewDesiredCapacity env.desiredCapacity) c1 0
        (elbHealthyAt env c1) = PollResult.timedOut w) :
    deploy env =
      { outcome := .exited 5,
        calls := [Call.createTags env.memberInstanceIds [terminationTag],
                  Call.suspendProcesses env.groupName asgProcesses,
                  Call.setDesiredCapacity env.groupName (getNewDesiredCapacity env.desiredCapacity)],
        finalDesired := getNewDesiredCapacity env.desiredCapacity,
        finalSuspended := suspendProcessesState env.suspendedProcesses asgProcesses,
        originalDesiredCapacity := some env.desiredCapacity,
        currentDesiredCapacity := some (getNewDesiredCapacity env.desiredCapacity),
        asgPollTarget := some (getNewDesiredCapacity env.desiredCapacity),
        elbPollTarget := some (getNewDesiredCapacity env.desiredCapacity) } := by
  unfold deploy
  rw [hl]
  simp [hcap, hp1, hp2]

theorem deploy_eq_of_success (env : DeployEnv) (a : String) (l : List String)
    (c1 w1 c2 w2 : Nat)
    (hl : env.loadBalancerNames = a :: l)
    (hcap : hasEnoughCapacity env.desiredCapacity env.maxSize = true)
    (hp1 : pollLoop (asgHealthyAt env) (getNewDesiredCapacity env.desiredCapacity) 0 0
        (asgHealthyAt env 0) = PollResult.converged c1 w1)
    (hp2 : pollLoop (elbHealthyAt env) (getNewDesiredCapacity env.desiredCapacity) c1 0
        (elbHealthyAt env c1) = PollResult.converged c2 w2) :
    deploy env =
      { outcome := .completed,
        calls := [Call.createTags env.memberInstanceIds [terminationTag],
                  Call.suspendProcesses env.groupName asgProcesses,
                  Call.setDesiredCapacity env.groupName (getNewDesiredCapacity env.desiredCapacity)] ++
          terminateInstancesCalls (getInstancesMarkedForTermination
            (.ok (describeInstancesByTag
              (markInstancesForTermination env.ec2Reservations env.memberInstanceIds)
              terminationTag.1 terminationTag.2))) ++
          [Call.setDesiredCapacity env.groupName env.desiredCapacity,
           Call.resumeProcesses env.groupName asgProcesses],
        finalDesired := env.desiredCapacity,
        finalSuspended := resumeProcessesState
          (suspendProcessesState env.suspendedProcesses asgProcesses) asgProcesses,
        originalDesiredCapacity := some env.desiredCapacity,
        currentDesiredCapacity := some (getNewDesiredCapacity env.desiredCapacity),
        asgPollTarget := some (getNewDesiredCapacity env.desiredCapacity),
        elbPollTarget := some (getNewDesiredCapacity env.desiredCapacity) } := by
  unfold deploy
  rw [hl]
  simp [hcap, hp1, hp2]

/-- C1: for every scaling group whose desired and max capacity satisfy
2 x desired > max (and whose load-balancer name resolves, since an empty
LoadBalancerNames list crashes earlier on the unhandled index), deploy aborts
at the preflight capacity gate with exit code 4 and an empty trace of mutating
provider calls: no tagging, no process suspension, no capacity change and no
termination happen before the exit. -/
theorem c1_capacity_gate (env : DeployEnv)
    (hlb : env.loadBalancerNames ≠ [])
    (hcap : env.maxSize < 2 * env.desiredCapacity) :
    (deploy env).outcome = Outcome.exited 4 ∧ (deploy env).calls = [] := by
  rcases hl : env.loadBalancerNames with _ | ⟨a, l⟩
  · exact absurd hl hlb
  · have hfalse : hasEnoughCapacity env.desiredCapacity env.maxSize = false := by
      simp [hasEnoughCapacity, getNewDesiredCapacity]
      omega
    rw [deploy_eq_of_insufficient env a l hl hfalse]
    exact ⟨rfl, rfl⟩

/-- Witness for C1: a concrete group with desired capacity 6 and max size 10
exits with code 4 and an empty mutation trace. -/
def c1Env : DeployEnv :=
  { groupName := "web", desiredCapacity := 6, maxSize := 10,
    loadBalancerNames := ["web-elb"], memberInstanceIds := [],
    suspendedProcesses := [], fleetAt := fun _ => [], elbStatesAt := fun _ => [],
    ec2Reservations := [] }

theorem c1_capacity_gate_witness :
    (deploy c1Env).outcome = Outcome.exited 4 ∧ (deploy c1Env).calls = [] :=
  c1_capacity_gate c1Env (by decide) (by decide)

/-- C2: whenever the capacity gate passes, the run captures
original_desired_capacity equal to the initial desired capacity, the one
capacity mutation issued before polling sets exactly twice that value, and the
desired capacity re-read after the doubling step equals exactly twice the
captured original; both polling loops are entered with that same value as their
target (the load-balancer loop only runs if the scaling-group loop converged),
and pollLoop takes the target as a plain number fixed at entry, re-reading only
the healthy count at each iteration. -/
theorem c2_fixed_target (env : DeployEnv)
    (hlb : env.loadBalancerNames ≠ [])
    (hcap : 2 * env.desiredCapacity ≤ env.maxSize) :
    (deploy env).originalDesiredCapacity = some env.desiredCapacity ∧
    (deploy env).currentDesiredCapacity = some (2 * env.desiredCapacity) ∧
    Call.setDesiredCapacity env.groupName (2 * env.desiredCapacity) ∈ (deploy env).calls ∧
    (deploy env).asgPollTarget = (deploy env).currentDesiredCapacity ∧
    ((deploy env).elbPollTarget = none ∨
      (deploy env).elbPollTarget = (deploy env).currentDesiredCapacity) := by
  rcases hl : env.loadBalancerNames with _ | ⟨a, l⟩
  · exact absurd hl hlb
  · have htrue : hasEnoughCapacity env.desiredCapacity env.maxSize = true := by
      simp [hasEnoughCapacity, getNewDesiredCapacity]
      omega
    rcases hp1 : pollLoop (asgHealthyAt env) (getNewDesiredCapacity env.desiredCapacity) 0 0
        (asgHealthyAt env 0) with ⟨c1, w1⟩ | w1
    · rcases hp2 : pollLoop (elbHealthyAt env) (getNewDesiredCapacity env.desiredCapacity) c1 0
          (elbHealthyAt env c1) with ⟨c2, w2⟩ | w2
      · rw [deploy_eq_of_success env a l c1 w1 c2 w2 hl htrue hp1 hp2]
        refine ⟨rfl, rfl, ?_, rfl, Or.inr rfl⟩
        simp [getNewDesiredCapacity]
      · rw [deploy_eq_of_elb_timeout env a l c1 w1 w2 hl htrue hp1 hp2]
        refine ⟨rfl, rfl, ?_, rfl, Or.inr rfl⟩
        simp [getNewDesiredCapacity]
    · rw [deploy_eq_of_asg_timeout env a l w1 hl htrue hp1]
      refine ⟨rfl, rfl, ?_, rfl, Or.inl rfl⟩
      simp [getNewDesiredCapacity]

/-- Witness for C2: a concrete group with desired capacity 2 and max size 10. -/
def c2Env : DeployEnv :=
  { groupName := "api", desiredCapacity := 2, maxSize := 10,
    loadBalancerNames := ["api-elb"], memberInstanceIds := ["i-1", "i-2"],
    suspendedProcesses := [], fleetAt := fun _ => [], elbStatesAt := fun _ => [],
    ec2Reservations := [] }

theorem c2_fixed_target_witness :
    (deploy c2Env).originalDesiredCapacity = some c2Env.desiredCapacity ∧
    (deploy c2Env).currentDesiredCapacity = some (2 * c2Env.desiredCapacity) ∧
    Call.setDesiredCapacity c2Env.groupName (2 * c2Env.desiredCapacity) ∈ (deploy c2Env).calls ∧
    (deploy c2Env).asgPollTarget = (deploy c2Env).currentDesiredCapacity ∧
    ((deploy c2Env).elbPollTarget = none ∨
      (deploy c2Env).elbPollTarget = (deploy c2Env).currentDesiredCapacity) :=
  c2_fixed_target c2Env (by decide) (by decide)

/-- C5: any run whose outcome is exit code 5 (a health-polling timeout, in
either phase) has issued exactly the mark, suspend and double calls and nothing
after them: no instance termination, no further capacity change (the desired
capacity remains at the doubled value) and no resumption of the suspended
automatic scaling process. -/
theorem c5_timeout_no_cleanup (env : DeployEnv)
    (h5 : (deploy env).outcome = Outcome.exited 5) :
    (deploy env).calls =
      [Call.createTags env.memberInstanceIds [terminationTag],
       Call.suspendProcesses env.groupName asgProcesses,
       Call.setDesiredCapacity env.groupName (2 * env.desiredCapacity)] ∧
    (∀ ids, Call.terminateInstances ids ∉ (deploy env).calls) ∧
    (∀ g procs, Call.resumeProcesses g procs ∉ (deploy env).calls) ∧
    (deploy env).finalDesired = 2 * env.desiredCapacity ∧
    (deploy env).finalSuspended = suspendProcessesState env.suspendedProcesses asgProcesses := by
  rcases hl : env.loadBalancerNames with _ | ⟨a, l⟩
  · rw [deploy_eq_of_no_lb env hl] at h5
    simp at h5
  · cases hcap : hasEnoughCapacity env.desiredCapacity env.maxSize with
    | false =>
      rw [deploy_eq_of_insufficient env a l hl hcap] at h5
      simp at h5
    | true =>
      rcases hp1 : pollLoop (asgHealthyAt env) (getNewDesiredCapacity env.desiredCapacity) 0 0
          (asgHealthyAt env 0) with ⟨c1, w1⟩ | w1
      · rcases hp2 : pollLoop (elbHealthyAt env) (getNewDesiredCapacity env.desiredCapacity) c1 0
            (elbHealthyAt env c1) with ⟨c2, w2⟩ | w2
        · rw [deploy_eq_of_success env a l c1 w1 c2 w2 hl hcap hp1 hp2] at h5
          simp at h5
        · rw [deploy_eq_of_elb_timeout env a l c1 w1 w2 hl hcap hp1 hp2]
          refine ⟨rfl, fun ids => by simp, fun g procs => by simp, rfl, rfl⟩
      · rw [deploy_eq_of_asg_timeout env a l w1 hl hcap hp1]
        refine ⟨rfl, fun ids => by simp, fun g procs => by simp, rfl, rfl⟩

/-- Witness environment for C5: desired capacity 1, max size 2, and a fleet
whose healthy count is always zero, so the scaling-group polling phase times
out. -/
def c5Env : DeployEnv :=
  { groupName := "web", desiredCapacity := 1, maxSize := 2,
    loadBalancerNames := ["web-elb"], memberInstanceIds := ["i-old"],
    suspendedProcesses := [], fleetAt := fun _ => [], elbStatesAt := fun _ => [],
    ec2Reservations := [[{ instanceId := "i-old", tags := [] }]] }

theorem c5_timeout_no_cleanup_witness :
    (deploy c5Env).calls =
      [Call.createTags c5Env.memberInstanceIds [terminationTag],
       Call.suspendProcesses c5Env.groupName asgProcesses,
       Call.setDesiredCapacity c5Env.groupName (2 * c5Env.desiredCapacity)] ∧
    (∀ ids, Call.terminateInstances ids ∉ (deploy c5Env).calls) ∧
    (∀ g procs, Call.resumeProcesses g procs ∉ (deploy c5Env).calls) ∧
    (deploy c5Env).finalDesired = 2 * c5Env.desiredCapacity ∧
    (deploy c5Env).finalSuspended =
      suspendProcessesState c5Env.suspendedProcesses asgProcesses :=
  c5_timeout_no_cleanup c5Env (by
    have hall : ∀ t, asgHealthyAt c5Env t < getNewDesiredCapacity c5Env.desiredCapacity := by
      intro t
      simp [asgHealthyAt, c5Env, AutoScalingGroup.getHealthyInstanceCount, getNewDesiredCapacity]
    have hp := pollLoop_never_healthy (asgHealthyAt c5Env)
      (getNewDesiredCapacity c5Env.desiredCapacity) hall 30 0 0 (asgHealthyAt c5Env 0)
      (by omega) (by omega) (by omega) (hall 0)
    rw [deploy_eq_of_asg_timeout c5Env "web-elb" [] 900 rfl rfl hp])

/-- A fleet of 51 in-service records, one more than the MaxRecords page size
used by the healthy-count call. -/
def c3Fleet : List AsgInstance :=
  List.replicate 51
    { instanceId := "i-x", autoScalingGroupName := "other-group", lifecycleState := "InService" }

/-- C3 counterexample: on a fleet of 51 in-service auto-scaling instances the
healthy count is 50, not 51, because describe_auto_scaling_instances is issued
with MaxRecords 50 and the response is not paginated; so the count does not
include every in-service instance visible to the credential. -/
theorem c3_counterexample :
    AutoScalingGroup.getHealthyInstanceCount c3Fleet = 50 ∧
    c3Fleet.countP (fun i => i.lifecycleState == "InService") = 51 := by
  decide

/-- C3 amended: the scaling-group healthy count is computed with no group
filter over the first page (at most 50 records) of the whole fleet of
auto-scaling instances visible to the credential; within that page every
in-service instance is counted, including members of scaling groups other than
the one being deployed, and for a fleet that fits in one page the count equals
the in-service count of the entire fleet. -/
theorem c3_fleet_wide_count (own other : List AsgInstance)
    (h : own.length + other.length ≤ 50) :
    AutoScalingGroup.getHealthyInstanceCount (own ++ other) =
      own.countP (fun i => i.lifecycleState == "InService") +
      other.countP (fun i => i.lifecycleState == "InService") := by
  unfold AutoScalingGroup.getHealthyInstanceCount
  rw [List.take_of_length_le (by simp only [List.length_append]; omega), List.countP_append]

/-- Witness for C3 amended: one in-service member of the deployed group plus
two records of another group; the count is the fleet-wide in-service count. -/
theorem c3_fleet_wide_count_witness :
    AutoScalingGroup.getHealthyInstanceCount
      ([{ instanceId := "i-a", autoScalingGroupName := "web", lifecycleState := "InService" }] ++
       [{ instanceId := "i-b", autoScalingGroupName := "other", lifecycleState := "InService" },
        { instanceId := "i-c", autoScalingGroupName := "other", lifecycleState := "Pending" }]) =
      List.countP (fun i => i.lifecycleState == "InService")
        ([{ instanceId := "i-a", autoScalingGroupName := "web",
            lifecycleState := "InService" }] : List AsgInstance) +
      List.countP (fun i => i.lifecycleState == "InService")
        ([{ instanceId := "i-b", autoScalingGroupName := "other", lifecycleState := "InService" },
          { instanceId := "i-c", autoScalingGroupName := "other",
            lifecycleState := "Pending" }] : List AsgInstance) :=
  c3_fleet_wide_count
    [{ instanceId := "i-a", autoScalingGroupName := "web", lifecycleState := "InService" }]
    [{ instanceId := "i-b", autoScalingGroupName := "other", lifecycleState := "InService" },
     { instanceId := "i-c", autoScalingGroupName := "other", lifecycleState := "Pending" }]
    (by decide)

/-- C6: the termination-marker query returns exactly the instances of the
first reservation of the response, omitting marked instances in any later
reservation; any failure of the query, and the empty response, yield the empty
list; and on a concrete two-reservation state whose two instances both carry
the marker the query returns only the first one, a strict subset of the marked
instances. -/
theorem c6_first_reservation_only :
    (∀ (res : List Ec2Instance) (rest : List (List Ec2Instance)),
      getInstancesMarkedForTermination (Except.ok (res :: rest)) =
        res.map (fun i => i.instanceId)) ∧
    (∀ e, getInstancesMarkedForTermination (Except.error e) = []) ∧
    getInstancesMarkedForTermination (Except.ok []) = [] ∧
    getInstancesMarkedForTermination (Except.ok (describeInstancesByTag
      [[{ instanceId := "i-1", tags := [terminationTag] }],
       [{ instanceId := "i-2", tags := [terminationTag] }]]
      terminationTag.1 terminationTag.2)) = ["i-1"] ∧
    hasTag { instanceId := "i-2", tags := [terminationTag] }
      terminationTag.1 terminationTag.2 = true :=
  ⟨fun res rest => rfl, fun e => rfl, rfl, by decide, by decide⟩

/-- Witness for C6: a concrete response with a marked instance in each of two
reservations, from which only the first reservation is returned. -/
theorem c6_first_reservation_only_witness :
    getInstancesMarkedForTermination (Except.ok
      [[{ instanceId := "i-1", tags := [terminationTag] }],
       [{ instanceId := "i-2", tags := [terminationTag] }]]) = ["i-1"] :=
  c6_first_reservation_only.1 [{ instanceId := "i-1", tags := [terminationTag] }]
    [[{ instanceId := "i-2", tags := [terminationTag] }]]

/-- When no instance carries the given tag, the filtered describe response is
the empty reservation list. -/
theorem describeInstancesByTag_eq_nil (reservations : List (List Ec2Instance))
    (key value : String)
    (hnone : ∀ res ∈ reservations, ∀ i ∈ res, hasTag i key value = false) :
    describeInstancesByTag reservations key value = [] := by
  unfold describeInstancesByTag
  rw [List.filter_eq_nil_iff]
  intro a ha
  rw [List.mem_map] at ha
  obtain ⟨r, hr, rfl⟩ := ha
  have hempty : r.filter (fun i => hasTag i key value) = [] := by
    rw [List.filter_eq_nil_iff]
    intro i hi
    simp [hnone r hr i hi]
  simp [hempty]

/-- C7: querying the instances marked for termination never propagates a
lookup error: when no instance carries the marker the query returns the empty
list rather than failing the run, and a failed provider call also returns the
empty list. -/
theorem c7_no_lookup_error (reservations : List (List Ec2Instance))
    (hnone : ∀ res ∈ reservations, ∀ i ∈ res,
      hasTag i terminationTag.1 terminationTag.2 = false) :
    getInstancesMarkedForTermination (Except.ok
      (describeInstancesByTag reservations terminationTag.1 terminationTag.2)) = [] ∧
    (∀ e, getInstancesMarkedForTermination (Except.error e) = []) := by
  refine ⟨?_, fun e => rfl⟩
  rw [describeInstancesByTag_eq_nil reservations _ _ hnone]
  rfl

/-- Witness for C7: a concrete state whose only instance carries an unrelated
tag; the marker query returns the empty list. -/
theorem c7_no_lookup_error_witness :
    getInstancesMarkedForTermination (Except.ok
      (describeInstancesByTag [[{ instanceId := "i-7", tags := [("Name", "x")] }], []]
        terminationTag.1 terminationTag.2)) = [] :=
  (c7_no_lookup_error [[{ instanceId := "i-7", tags := [("Name", "x")] }], []]
    (by decide)).1

/-- C8: terminating an empty id sequence issues no provider call and raises no
error, and terminating a non-empty sequence issues exactly one provider call
requesting termination of exactly those instances. -/
theorem c8_terminate_empty_safe (ids : List String) :
    terminateInstancesCalls [] = [] ∧
    (ids ≠ [] → terminateInstancesCalls ids = [Call.terminateInstances ids]) := by
  refine ⟨rfl, fun h => ?_⟩
  cases ids with
  | nil => exact absurd rfl h
  | cons a t => simp [terminateInstancesCalls]

/-- Witness for C8: terminating the one-element sequence issues exactly that
termination call. -/
theorem c8_terminate_empty_safe_witness :
    terminateInstancesCalls ["i-9"] = [Call.terminateInstances ["i-9"]] :=
  (c8_terminate_empty_safe ["i-9"]).2 (by decide)

/-- Applying the same tag twice to a tag list equals applying it once. -/
theorem applyTag_idem (tags : List (String × String)) (t : String × String) :
    applyTag (applyTag tags t) t = applyTag tags t := by
  unfold applyTag
  by_cases h : tags.any (fun p => p.1 == t.1) = true
  · rw [if_pos h]
    have hany : ((tags.map (fun p => if p.1 == t.1 then (p.1, t.2) else p)).any
        (fun p => p.1 == t.1)) = true := by
      rw [List.any_eq_true] at h ⊢
      obtain ⟨p, hp, hpt⟩ := h
      exact ⟨(p.1, t.2), List.mem_map.mpr ⟨p, hp, by simp [hpt]⟩, by simpa using hpt⟩
    rw [if_pos hany, List.map_map]
    apply List.map_congr_left
    intro p _
    by_cases hp : (p.1 == t.1) = true <;> simp [Function.comp, hp]
  · rw [if_neg h]
    have hall : ∀ p ∈ tags, (p.1 == t.1) = false := by
      intro p hp
      by_contra hc
      exact h (List.any_eq_true.mpr ⟨p, hp, by revert hc; cases p.1 == t.1 <;> simp⟩)
    have hany : ((tags ++ [t]).any (fun p => p.1 == t.1)) = true := by
      simp
    rw [if_pos hany, List.map_append]
    have h1 : tags.map (fun p => if p.1 == t.1 then (p.1, t.2) else p) = tags := by
      conv_rhs => rw [← List.map_id tags]
      apply List.map_congr_left
      intro p hp
      simp [hall p hp]
    have h2 : [t].map (fun p => if p.1 == t.1 then (p.1, t.2) else p) = [t] := by
      simp
    rw [h1, h2]

/-- C9: marking a set of instances for termination is idempotent: applying the
termination marker twice to the same instance ids leaves every reservation,
every instance and every tag list identical to applying it once, hence in
particular the same marked set. -/
theorem c9_marker_idempotent (reservations : List (List Ec2Instance))
    (ids : List String) :
    markInstancesForTermination (markInstancesForTermination reservations ids) ids =
      markInstancesForTermination reservations ids := by
  unfold markInstancesForTermination createTags
  rw [List.map_map]
  apply List.map_congr_left
  intro res _
  simp only [Function.comp]
  rw [List.map_map]
  apply List.map_congr_left
  intro inst _
  simp only [Function.comp]
  by_cases h : ids.contains inst.instanceId = true
  · simp only [h, if_true, List.foldl_cons, List.foldl_nil]
    simp [applyTag_idem]
  · have hmem : inst.instanceId ∉ ids := fun hm => h (List.elem_iff.mpr hm)
    simp [hmem]

/-- C10: suspend and resume each toggle exactly the one automatic process
named AlarmNotification: it is suspended after the suspend call and absent
after the resume call, while the suspension state of every other process is
unchanged by both. -/
theorem c10_single_process_toggle (suspended : List String) (q : String)
    (hq : q ≠ "AlarmNotification") :
    "AlarmNotification" ∈ suspendProcessesState suspended asgProcesses ∧
    "AlarmNotification" ∉ resumeProcessesState suspended asgProcesses ∧
    (q ∈ suspendProcessesState suspended asgProcesses ↔ q ∈ suspended) ∧
    (q ∈ resumeProcessesState suspended asgProcesses ↔ q ∈ suspended) := by
  unfold suspendProcessesState resumeProcessesState asgProcesses
  simp only [List.foldl_cons, List.foldl_nil]
  refine ⟨?_, ?_, ?_, ?_⟩
  · by_cases h : suspended.contains "AlarmNotification" = true
    · rw [if_pos h]
      exact List.elem_iff.mp h
    · rw [if_neg h]
      simp
  · simp
  · by_cases h : suspended.contains "AlarmNotification" = true
    · rw [if_pos h]
    · rw [if_neg h]
      simp [hq]
  · simp [hq]

/-- Witness for C10: starting from one unrelated suspended process, suspend
adds AlarmNotification and resume removes it, leaving the other process alone. -/
theorem c10_single_process_toggle_witness :
    "AlarmNotification" ∈ suspendProcessesState ["Launch"] asgProcesses ∧
    "AlarmNotification" ∉ resumeProcessesState ["Launch"] asgProcesses ∧
    ("Launch" ∈ suspendProcessesState ["Launch"] asgProcesses ↔
      "Launch" ∈ (["Launch"] : List String)) ∧
    ("Launch" ∈ resumeProcessesState ["Launch"] asgProcesses ↔
      "Launch" ∈ (["Launch"] : List String)) :=
  c10_single_process_toggle ["Launch"] "Launch" (by decide)
